import Mathlib

/-!
Verification of the rapid-convergence workchain
(`aiida_user_addons/vworkflows/converge.py`) and the delithiation retry
helper (`aiida_user_addons/process/battery.py`), as a shallow embedding.

Numbers held as Python floats in the source are modelled as rationals;
`None` entries of a data row are modelled as `Option` values; code that can
raise an uncaught Python exception is modelled in `Except String`.
-/

namespace Converge

/-- The allowed values of `cutoff_type`
(`_ALLOWED_CUTOFF_TYPES = {"energy": 0, "forces": 1, "vbm": 2, "gap": 3}`,
converge.py line 47). -/
inductive CutoffType where
  | energy
  | forces
  | vbm
  | gap
deriving DecidableEq, Repr

/-- One row of `pw_data` as appended by `results_pw_conv_calc` /
`results_pw_conv_calc_no_block` (converge.py lines 1021-1026, 1080-1085):
`[pwcutoff, total_energy, max_force, max_valence_band, gap]`, where the
four observables are `None` for a failed calculation. -/
structure PwRow where
  cutoff : ℚ
  energy : Option ℚ
  force : Option ℚ
  vbm : Option ℚ
  gap : Option ℚ
deriving DecidableEq, Repr

/-- `None not in elements` for a `pw_data` row: the cutoff column is always a
number, so the row passes the filter of `_check_pw_converged` (line 1899)
exactly when all four observables are present. -/
def PwRow.complete (r : PwRow) : Bool :=
  r.energy.isSome && r.force.isSome && r.vbm.isSome && r.gap.isSome

/-- The observable of a `pw_data` row selected by `cutoff_type`:
`pw_data[i][criteria + 1]` with `criteria = _ALLOWED_CUTOFF_TYPES[cutoff_type]`
(line 1912).  Only evaluated on rows that passed the completeness filter, so
the default value of `getD` is never used there. -/
def PwRow.metric (c : CutoffType) (r : PwRow) : ℚ :=
  match c with
  | .energy => r.energy.getD 0
  | .forces => r.force.getD 0
  | .vbm => r.vbm.getD 0
  | .gap => r.gap.getD 0

/-- One row of `k_data` as appended by `results_kpoints_conv_calc` /
`results_kpoints_conv_calc_no_block` (converge.py lines 1292-1308, 1363-1379):
`[kgrid[0], kgrid[1], kgrid[2], pwcutoff, total_energy, max_force, vbm, gap]`,
the four observables being `None` for a failed calculation. -/
structure KRow where
  k1 : ℤ
  k2 : ℤ
  k3 : ℤ
  cut : ℚ
  energy : Option ℚ
  force : Option ℚ
  vbm : Option ℚ
  gap : Option ℚ
deriving DecidableEq, Repr

/-- `None not in elements` for a `k_data` row (line 1944): the first four
columns are always numbers. -/
def KRow.complete (r : KRow) : Bool :=
  r.energy.isSome && r.force.isSome && r.vbm.isSome && r.gap.isSome

/-- `k_data[i][criteria + 4]` (line 1956). -/
def KRow.metric (c : CutoffType) (r : KRow) : ℚ :=
  match c with
  | .energy => r.energy.getD 0
  | .forces => r.force.getD 0
  | .vbm => r.vbm.getD 0
  | .gap => r.gap.getD 0

/-- `k_data[index][0:3]` — the independent variable of a k-point row. -/
def KRow.grid (r : KRow) : ℤ × ℤ × ℤ :=
  (r.k1, r.k2, r.k3)

/-- The scan loop shared by `_check_pw_converged` (lines 1910-1917) and
`_check_kpoints_converged` (lines 1955-1960): walk consecutive pairs in
order and return `out` of the later point of the first pair whose metric
delta is strictly below the threshold, `none` when no pair qualifies. -/
def scanPairs {α β : Type} (out : α → β) (m : α → ℚ) (θ : ℚ) : List α → Option β
  | a :: b :: rest =>
      if |m b - m a| < θ then some (out b) else scanPairs out m θ (b :: rest)
  | _ => none

/-- `RapidConvergeWorkChain._check_pw_converged` (converge.py lines
1883-1924), with the data, cutoff type and threshold passed explicitly:
drop rows holding a `None`, require at least two rows, then scan
consecutive deltas of the selected observable and return the cutoff of the
first satisfying later point. -/
def check_pw_converged (pw_data : List PwRow) (c : CutoffType) (θ : ℚ) :
    Option ℚ :=
  let d := pw_data.filter PwRow.complete
  if d.length < 2 then none
  else scanPairs PwRow.cutoff (PwRow.metric c) θ d

/-- `RapidConvergeWorkChain._check_kpoints_converged` (converge.py lines
1926-1966): same scan over `k_data`, returning `k_data[index][0:3]`. -/
def check_kpoints_converged (k_data : List KRow) (c : CutoffType) (θ : ℚ) :
    Option (ℤ × ℤ × ℤ) :=
  let d := k_data.filter KRow.complete
  if d.length < 2 then none
  else scanPairs KRow.grid (KRow.metric c) θ d

/-- `analyze_pw_conv_many` (converge.py lines 1419-1441), for the case
`pwcutoff_org is None` (a baseline sweep was run): the recommended cutoff is
the checker result, or — with a warning reported, modelled by the `Bool`
component — the cutoff of the last sampled row `pw_data[-1][0]` when the
checker returned `None`.  Indexing an empty list raises in Python, hence the
`Except`. -/
def analyze_pw_conv_many (pw_data : List PwRow) (c : CutoffType) (θ : ℚ) :
    Except String (ℚ × Bool) :=
  match check_pw_converged pw_data c θ with
  | some v => Except.ok (v, false)
  | none =>
      match pw_data.getLast? with
      | some r => Except.ok (r.cutoff, true)
      | none => Except.error "IndexError: list index out of range"

/-- The k-grid fallback at the end of `analyze_conv` (converge.py lines
1511-1520), for the case of no user-supplied k-mesh: if the recommended grid
is `None`, report a warning (the `Bool` component) and use the densest
sampled grid `k_data_org[-1][0:3]`. -/
def analyze_k_fallback (k_data_org : List KRow) (kgrid : Option (ℤ × ℤ × ℤ)) :
    Except String ((ℤ × ℤ × ℤ) × Bool) :=
  match kgrid with
  | some g => Except.ok (g, false)
  | none =>
      match k_data_org.getLast? with
      | some r => Except.ok (r.grid, true)
      | none => Except.error "IndexError: list index out of range"

/-- The element-wise update of one row performed inside the diff loops of
`_analyze_conv_disp` (lines 1663-1668) and `_analyze_conv_comp` (lines
1773-1778): `row[1:] = [variant[j+1] - org[j+1] for j in range(4)]`.  Each
subtraction raises `TypeError` in Python when either operand is `None`, so
the row update succeeds exactly when both rows are complete; the cutoff
column (index 0) of the variant row is kept untouched. -/
def rowSub (a b : PwRow) : Except String PwRow :=
  if a.complete && b.complete then
    Except.ok
      { cutoff := a.cutoff,
        energy := some (a.energy.getD 0 - b.energy.getD 0),
        force := some (a.force.getD 0 - b.force.getD 0),
        vbm := some (a.vbm.getD 0 - b.vbm.getD 0),
        gap := some (a.gap.getD 0 - b.gap.getD 0) }
  else Except.error "TypeError: unsupported operand type(s) for -"

/-- The index-aligned difference sweep of `_analyze_conv_disp` /
`_analyze_conv_comp`: iterate over the indices of the variant sweep,
reading `pw_data_org[index]` (an `IndexError` when the baseline sweep is
shorter) and updating the row with `rowSub`.  The loop mutates the variant
rows in place in the source; each index is read before it is written, so
the functional rendering is equivalent. -/
def diffSweep : List PwRow → List PwRow → Except String (List PwRow)
  | [], _ => Except.ok []
  | _ :: _, [] => Except.error "IndexError: list index out of range"
  | a :: as, b :: bs => do
      let r ← rowSub a b
      let rest ← diffSweep as bs
      pure (r :: rest)

/-- The plane-wave-cutoff recommendation produced by `analyze_conv`
(converge.py lines 1459-1520) for a run where the cutoff was not supplied by
the user (`pwcutoff_org is None`), restricted to the cutoff axis:

* neither variant requested — `_analyze_conv` returns `settings.pwcutoff`,
  which `analyze_pw_conv_many` set from the baseline sweep;
* displacement only — `_analyze_conv_disp` checks the displacement-minus-
  baseline difference sweep against the relative threshold, and the `None`
  fallback of lines 1501-1510 substitutes `pw_data_org[-1][0]`;
* compression only — same via `_analyze_conv_comp`;
* both — `_analyze_conv_disp_comp` takes `max` of the two difference-sweep
  recommendations, a Python `TypeError` when either of them is `None`. -/
def analyzeConvCutoff (displace compress : Bool)
    (pw_data_org pw_data_disp pw_data_comp : List PwRow)
    (c : CutoffType) (θ θr : ℚ) : Except String ℚ :=
  match displace, compress with
  | false, false => do
      let b ← analyze_pw_conv_many pw_data_org c θ
      pure b.1
  | true, false => do
      let d ← diffSweep pw_data_disp pw_data_org
      match check_pw_converged d c θr with
      | some v => pure v
      | none =>
          match pw_data_org.getLast? with
          | some r => pure r.cutoff
          | none => Except.error "IndexError: list index out of range"
  | false, true => do
      let d ← diffSweep pw_data_comp pw_data_org
      match check_pw_converged d c θr with
      | some v => pure v
      | none =>
          match pw_data_org.getLast? with
          | some r => pure r.cutoff
          | none => Except.error "IndexError: list index out of range"
  | true, true => do
      let dd ← diffSweep pw_data_disp pw_data_org
      let dc ← diffSweep pw_data_comp pw_data_org
      match check_pw_converged dd c θr, check_pw_converged dc c θr with
      | some a, some b => pure (max a b)
      | _, _ =>
          Except.error
            "TypeError: NoneType is not supported as an argument of max"

/-- The value stored under the output key `pw_displacement` by `store_conv` /
`store_conv_data` (converge.py lines 1857-1881, 2077-2113) for a run with
displacement requested and no user-supplied cutoff: `analyze_conv` runs
before `store_conv` in the outline (lines 310-311), and
`_analyze_conv_disp` rebinds `pw_data = pw_data_displacement` (line 1663)
and assigns `pw_data[index][1:]` in place, so the context value persisted
afterwards is the difference sweep, not the raw displacement sweep. -/
def stored_pw_displacement (pw_data_org pw_data_disp : List PwRow) :
    Except String (List PwRow) :=
  diffSweep pw_data_disp pw_data_org

/-- `x**2` summed over a grid triple; `np.sqrt` applied on both sides of
the comparison in `_analyze_conv_disp_comp` (lines 1595-1597) is strictly
monotone on nonnegative values, so comparing the squared norms is
equivalent. -/
def sq_norm (g : ℤ × ℤ × ℤ) : ℤ :=
  g.1 * g.1 + g.2.1 * g.2.1 + g.2.2 * g.2.2

/-- `RapidConvergeWorkChain._analyze_conv_disp_comp` (converge.py lines
1571-1638), for the case that both variants produced recommendations and no
k-mesh was supplied: the cutoff is `max(pwcutoff_displacement,
pwcutoff_comp)` (line 1586) and the grid is the one of the two with the
larger Euclidean norm, the compression grid winning ties (lines 1594-1600). -/
def analyze_conv_disp_comp (pwD pwC : ℚ) (kD kC : ℤ × ℤ × ℤ) :
    ℚ × (ℤ × ℤ × ℤ) :=
  (max pwD pwC, if sq_norm kC < sq_norm kD then kD else kC)

/-- A record of one submitted child workchain: the caller-assigned identity
(`uuid`, recorded in `run_pw_conv_many` before the batch returns) plus its
payload. -/
structure WorkNode where
  uuid : ℕ
  payload : ℤ
deriving DecidableEq, Repr

/-- `sort_with_uuids` (converge.py lines 2122-2131): build a uuid-keyed
lookup table from the collected nodes (a Python dict, so a duplicated uuid
keeps the last entry — hence the reversed `find?`) and emit nodes in
the order of the recorded uuid list; a missing uuid raises `KeyError`. -/
def sort_with_uuids (nodes : List WorkNode) (uuids : List ℕ) :
    Except String (List WorkNode) :=
  uuids.mapM fun u =>
    match nodes.reverse.find? (fun n => n.uuid == u) with
    | some n => Except.ok n
    | none => Except.error "KeyError"

/-- The spacing series of `_init_kpoints_conv` (converge.py lines 607-614):
`stepping = (k_coarse - k_dense) / k_samples` and
`k_sampling = [k_coarse - x * stepping for x in range(k_samples + 1)]`. -/
def k_sampling (coarse dense : ℚ) (n : ℕ) : List ℚ :=
  (List.range (n + 1)).map fun (x : ℕ) =>
    coarse - (x : ℚ) * ((coarse - dense) / n)

/-- The grid generation with consecutive deduplication of
`_init_kpoints_conv` (converge.py lines 617-627): map each spacing through
`fetch_k_grid` (an external collaborator, abstracted as `f`), skip a grid
equal to the previous kept one (`last_kgrid` starts as `None`, equal to no
grid), append otherwise. -/
def generate_unique_grids (f : ℚ → ℤ × ℤ × ℤ) :
    Option (ℤ × ℤ × ℤ) → List ℚ → List (ℤ × ℤ × ℤ)
  | _, [] => []
  | last, s :: rest =>
      let g := f s
      if some g = last then generate_unique_grids f last rest
      else g :: generate_unique_grids f (some g) rest

end Converge

namespace Battery

/-- The retry loop of `create_delithiated_multiple_level`
(battery.py lines 629-641), fuel-indexed to make the recursion structural
(the loop performs at most one attempt per tolerance value up to the
ceiling, so any fuel covering those attempts reproduces it exactly).
`enumOk atol` abstracts whether
`DelithiationManager.create_delithiated_structures_multiple_levels`
succeeds at symmetry tolerance `atol` (raising `ValueError` otherwise);
the returned tolerance stands for the successful enumeration result at that
tolerance.  One iteration: attempt; on `ValueError` multiply the tolerance
by 10; then abort when the current tolerance exceeds `0.01`; otherwise exit
with the result if the attempt succeeded, else loop. -/
def deliLoop (enumOk : ℚ → Bool) : ℕ → ℚ → Except String ℚ
  | 0, _ => Except.error "fuel exhausted"
  | fuel + 1, atol =>
      if enumOk atol then
        if atol > 1 / 100 then
          Except.error "Persisting symmetry error - aborting the process"
        else Except.ok atol
      else
        let atol2 := atol * 10
        if atol2 > 1 / 100 then
          Except.error "Persisting symmetry error - aborting the process"
        else deliLoop enumOk fuel atol2

/-- `create_delithiated_multiple_level` (battery.py lines 607-655) reduced
to its enumeration retry behaviour: the tolerance starts at the supplied
`atol` parameter or its default `1e-5` (lines 619-622), and the loop runs
with ample fuel: from the default start at most four attempts happen before
success or the ceiling abort, so the fuel is never exhausted there (a
nonpositive starting tolerance would make the Python loop spin forever;
the fuel marker stands for that divergence). -/
def create_delithiated_multiple_level (enumOk : ℚ → Bool)
    (atol0 : Option ℚ) : Except String ℚ :=
  deliLoop enumOk 16 (atol0.getD (1 / 100000))

end Battery

namespace Converge

/-- The scan returns `none` exactly when no consecutive pair has a metric
delta below the threshold. -/
theorem scanPairs_eq_none_iff {α β : Type} (out : α → β) (m : α → ℚ) (θ : ℚ) :
    ∀ l : List α, scanPairs out m θ l = none ↔
      l.Chain' fun a b => ¬|m b - m a| < θ
  | [] => by simp [scanPairs]
  | [a] => by simp [scanPairs]
  | a :: b :: t => by
    by_cases h : |m b - m a| < θ
    · simp [scanPairs, h]
    · have h2 : θ ≤ |m b - m a| := not_lt.1 h
      simp [scanPairs, h, scanPairs_eq_none_iff out m θ (b :: t), h2]

/-- When the scan succeeds, the list splits at the first consecutive pair
whose delta is below the threshold — every pair strictly before it fails —
and the returned value is `out` of the later point of that pair. -/
theorem scanPairs_eq_some {α β : Type} (out : α → β) (m : α → ℚ) (θ : ℚ) :
    ∀ (l : List α) (v : β), scanPairs out m θ l = some v →
      ∃ p x y s, l = p ++ x :: y :: s ∧ |m y - m x| < θ ∧
        ((p ++ [x]).Chain' fun a b => ¬|m b - m a| < θ) ∧ v = out y
  | [], v => by simp [scanPairs]
  | [a], v => by simp [scanPairs]
  | a :: b :: t, v => by
    by_cases h : |m b - m a| < θ
    · intro hv
      simp only [scanPairs, if_pos h, Option.some.injEq] at hv
      exact ⟨[], a, b, t, rfl, h, by simp, hv.symm⟩
    · intro hv
      simp only [scanPairs, if_neg h] at hv
      obtain ⟨p, x, y, s, hl, hxy, hch, hv⟩ :=
        scanPairs_eq_some out m θ (b :: t) v hv
      refine ⟨a :: p, x, y, s, by simp [hl], hxy, ?_, hv⟩
      rw [List.cons_append, List.chain'_cons']
      refine ⟨?_, hch⟩
      intro z hz
      cases p with
      | nil =>
          simp only [List.nil_append, List.cons.injEq] at hl
          simp only [List.nil_append, List.head?_cons, Option.mem_def,
            Option.some.injEq] at hz
          rw [← hz, ← hl.1]
          exact h
      | cons p0 ps =>
          simp only [List.cons_append, List.cons.injEq] at hl
          simp only [List.cons_append, List.head?_cons, Option.mem_def,
            Option.some.injEq] at hz
          rw [← hz, ← hl.1]
          exact h

/-- C1: for every sample sequence, metric and threshold, the convergence
check first drops every point containing a null observable (the filtered
list keeps the relative order), returns `none` when fewer than two points
remain, otherwise returns the independent variable (cutoff, or k-grid
triple) of the later point of the first consecutive pair whose metric delta
is strictly below the threshold, and `none` when no pair qualifies —
a first-satisfying-pair policy. -/
theorem c1_checker_first_satisfying_pair (pw_data : List PwRow)
    (k_data : List KRow) (c : CutoffType) (θ : ℚ) :
    ((pw_data.filter PwRow.complete).length < 2 →
      check_pw_converged pw_data c θ = none) ∧
    (check_pw_converged pw_data c θ = none ↔
      (pw_data.filter PwRow.complete).length < 2 ∨
        (pw_data.filter PwRow.complete).Chain'
          (fun a b => ¬|PwRow.metric c b - PwRow.metric c a| < θ)) ∧
    (∀ v, check_pw_converged pw_data c θ = some v →
      ∃ p x y s, pw_data.filter PwRow.complete = p ++ x :: y :: s ∧
        |PwRow.metric c y - PwRow.metric c x| < θ ∧
        ((p ++ [x]).Chain'
          (fun a b => ¬|PwRow.metric c b - PwRow.metric c a| < θ)) ∧
        v = y.cutoff) ∧
    ((k_data.filter KRow.complete).length < 2 →
      check_kpoints_converged k_data c θ = none) ∧
    (check_kpoints_converged k_data c θ = none ↔
      (k_data.filter KRow.complete).length < 2 ∨
        (k_data.filter KRow.complete).Chain'
          (fun a b => ¬|KRow.metric c b - KRow.metric c a| < θ)) ∧
    (∀ v, check_kpoints_converged k_data c θ = some v →
      ∃ p x y s, k_data.filter KRow.complete = p ++ x :: y :: s ∧
        |KRow.metric c y - KRow.metric c x| < θ ∧
        ((p ++ [x]).Chain'
          (fun a b => ¬|KRow.metric c b - KRow.metric c a| < θ)) ∧
        v = y.grid) := by
  refine ⟨?_, ?_, ?_, ?_, ?_, ?_⟩
  · intro hL
    simp [check_pw_converged, hL]
  · by_cases hL : (pw_data.filter PwRow.complete).length < 2
    · simp [check_pw_converged, hL]
    · simp [check_pw_converged, hL, scanPairs_eq_none_iff]
  · intro v hv
    by_cases hL : (pw_data.filter PwRow.complete).length < 2
    · simp [check_pw_converged, hL] at hv
    · simp only [check_pw_converged, if_neg hL] at hv
      exact scanPairs_eq_some PwRow.cutoff (PwRow.metric c) θ _ v hv
  · intro hL
    simp [check_kpoints_converged, hL]
  · by_cases hL : (k_data.filter KRow.complete).length < 2
    · simp [check_kpoints_converged, hL]
    · simp [check_kpoints_converged, hL, scanPairs_eq_none_iff]
  · intro v hv
    by_cases hL : (k_data.filter KRow.complete).length < 2
    · simp [check_kpoints_converged, hL] at hv
    · simp only [check_kpoints_converged, if_neg hL] at hv
      exact scanPairs_eq_some KRow.grid (KRow.metric c) θ _ v hv

/-- Witness for C1: on the four-sample sweep with energy deltas
`[0.5, 0.01, 0.3]` and threshold `0.05`, the checker stops at the first
satisfying pair and returns the later point of that pair (cutoff 300). -/
theorem c1_witness :
    ∃ p x y s,
      ([⟨200, some 0, some 0, some 0, some 0⟩,
        ⟨250, some (1 / 2), some 0, some 0, some 0⟩,
        ⟨300, some (51 / 100), some 0, some 0, some 0⟩,
        ⟨350, some (81 / 100), some 0, some 0, some 0⟩] :
          List PwRow).filter PwRow.complete = p ++ x :: y :: s ∧
      |PwRow.metric CutoffType.energy y - PwRow.metric CutoffType.energy x| <
        1 / 20 ∧
      ((p ++ [x]).Chain' fun a b =>
        ¬|PwRow.metric CutoffType.energy b -
            PwRow.metric CutoffType.energy a| < 1 / 20) ∧
      (300 : ℚ) = y.cutoff :=
  (c1_checker_first_satisfying_pair
      [⟨200, some 0, some 0, some 0, some 0⟩,
       ⟨250, some (1 / 2), some 0, some 0, some 0⟩,
       ⟨300, some (51 / 100), some 0, some 0, some 0⟩,
       ⟨350, some (81 / 100), some 0, some 0, some 0⟩]
      [] CutoffType.energy (1 / 20)).2.2.1 300
    (by norm_num [check_pw_converged, scanPairs, PwRow.complete, PwRow.metric,
      List.filter_cons, abs_lt])

/-- Inserting an element rejected by the filter leaves the filtered list
unchanged, wherever it is inserted. -/
theorem filter_insertIdx_of_not {α : Type} (p : α → Bool) (a : α)
    (ha : p a = false) :
    ∀ (n : ℕ) (l : List α), (l.insertIdx n a).filter p = l.filter p
  | 0, l => by simp [List.insertIdx_zero, List.filter_cons, ha]
  | n + 1, [] => by simp [List.insertIdx_succ_nil]
  | n + 1, b :: l => by
    simp [List.insertIdx_succ_cons, List.filter_cons,
      filter_insertIdx_of_not p a ha n l]

/-- C5: inserting a failed (all-null-observable) sample point at any
position leaves the result of the convergence check unchanged, for both the
plane-wave and the k-point checker; when the position is within the list
the failed point is still present in the record afterwards. -/
theorem c5_failed_point_exclusion (pw_data : List PwRow) (k_data : List KRow)
    (n : ℕ) (r : PwRow) (rk : KRow) (c : CutoffType) (θ : ℚ)
    (hr : r.energy = none ∧ r.force = none ∧ r.vbm = none ∧ r.gap = none)
    (hrk : rk.energy = none ∧ rk.force = none ∧ rk.vbm = none ∧
      rk.gap = none) :
    check_pw_converged (pw_data.insertIdx n r) c θ =
      check_pw_converged pw_data c θ ∧
    check_kpoints_converged (k_data.insertIdx n rk) c θ =
      check_kpoints_converged k_data c θ ∧
    (n ≤ pw_data.length → r ∈ pw_data.insertIdx n r) := by
  have hc : PwRow.complete r = false := by
    simp [PwRow.complete, hr.1, hr.2.1, hr.2.2.1, hr.2.2.2]
  have hck : KRow.complete rk = false := by
    simp [KRow.complete, hrk.1, hrk.2.1, hrk.2.2.1, hrk.2.2.2]
  refine ⟨?_, ?_, ?_⟩
  · simp only [check_pw_converged,
      filter_insertIdx_of_not PwRow.complete r hc n pw_data]
  · simp only [check_kpoints_converged,
      filter_insertIdx_of_not KRow.complete rk hck n k_data]
  · intro hn
    exact (List.mem_insertIdx hn).2 (Or.inl rfl)

/-- Witness for C5: a failed point inserted in the middle of a four-sample
sweep does not alter the checker result, and stays in the record. -/
theorem c5_witness :
    check_pw_converged
        (([⟨200, some 0, some 0, some 0, some 0⟩,
           ⟨250, some (1 / 2), some 0, some 0, some 0⟩,
           ⟨300, some (51 / 100), some 0, some 0, some 0⟩] :
            List PwRow).insertIdx 1 ⟨225, none, none, none, none⟩)
        CutoffType.energy (1 / 20) =
      check_pw_converged
        [⟨200, some 0, some 0, some 0, some 0⟩,
         ⟨250, some (1 / 2), some 0, some 0, some 0⟩,
         ⟨300, some (51 / 100), some 0, some 0, some 0⟩]
        CutoffType.energy (1 / 20) ∧
    check_kpoints_converged
        (([] : List KRow).insertIdx 1 ⟨2, 2, 2, 300, none, none, none, none⟩)
        CutoffType.energy (1 / 20) =
      check_kpoints_converged [] CutoffType.energy (1 / 20) ∧
    (1 ≤ ([⟨200, some 0, some 0, some 0, some 0⟩,
           ⟨250, some (1 / 2), some 0, some 0, some 0⟩,
           ⟨300, some (51 / 100), some 0, some 0, some 0⟩] :
            List PwRow).length →
      (⟨225, none, none, none, none⟩ : PwRow) ∈
        ([⟨200, some 0, some 0, some 0, some 0⟩,
          ⟨250, some (1 / 2), some 0, some 0, some 0⟩,
          ⟨300, some (51 / 100), some 0, some 0, some 0⟩] :
            List PwRow).insertIdx 1 ⟨225, none, none, none, none⟩) :=
  c5_failed_point_exclusion
    [⟨200, some 0, some 0, some 0, some 0⟩,
     ⟨250, some (1 / 2), some 0, some 0, some 0⟩,
     ⟨300, some (51 / 100), some 0, some 0, some 0⟩]
    [] 1 ⟨225, none, none, none, none⟩ ⟨2, 2, 2, 300, none, none, none, none⟩
    CutoffType.energy (1 / 20) ⟨rfl, rfl, rfl, rfl⟩ ⟨rfl, rfl, rfl, rfl⟩

/-- C2: when the checker finds no satisfying pair over the whole sweep, the
controller recommends the last (most expensive) sampled cutoff together
with a logged warning (the `true` flag) instead of failing, and the same
fallback to the last (densest) sampled grid holds for the k-point axis. -/
theorem c2_fallback_to_most_expensive (pw_data : List PwRow)
    (k_data_org : List KRow) (c : CutoffType) (θ : ℚ) (r : PwRow)
    (rk : KRow) :
    (check_pw_converged pw_data c θ = none → pw_data.getLast? = some r →
      analyze_pw_conv_many pw_data c θ = Except.ok (r.cutoff, true)) ∧
    (check_kpoints_converged k_data_org c θ = none →
      k_data_org.getLast? = some rk →
      analyze_k_fallback k_data_org (check_kpoints_converged k_data_org c θ) =
        Except.ok (rk.grid, true)) := by
  constructor
  · intro h1 h2
    simp [analyze_pw_conv_many, h1, h2]
  · intro h1 h2
    simp [analyze_k_fallback, h1, h2]

/-- Witness for C2: a ten-sample cutoff sweep whose consecutive energy
deltas all equal 1 with threshold 1/2 has no satisfying pair, so the
fallback recommends the last sampled cutoff (650 eV); a two-sample k sweep
with the same property falls back to the densest sampled grid. -/
theorem c2_witness :
    analyze_pw_conv_many
        [⟨200, some 0, some 0, some 0, some 0⟩,
         ⟨250, some 1, some 0, some 0, some 0⟩,
         ⟨300, some 2, some 0, some 0, some 0⟩,
         ⟨350, some 3, some 0, some 0, some 0⟩,
         ⟨400, some 4, some 0, some 0, some 0⟩,
         ⟨450, some 5, some 0, some 0, some 0⟩,
         ⟨500, some 6, some 0, some 0, some 0⟩,
         ⟨550, some 7, some 0, some 0, some 0⟩,
         ⟨600, some 8, some 0, some 0, some 0⟩,
         ⟨650, some 9, some 0, some 0, some 0⟩]
        CutoffType.energy (1 / 2) = Except.ok ((650 : ℚ), true) ∧
    analyze_k_fallback
        [⟨2, 2, 2, 650, some 0, some 0, some 0, some 0⟩,
         ⟨6, 6, 6, 650, some 1, some 0, some 0, some 0⟩]
        (check_kpoints_converged
          [⟨2, 2, 2, 650, some 0, some 0, some 0, some 0⟩,
           ⟨6, 6, 6, 650, some 1, some 0, some 0, some 0⟩]
          CutoffType.energy (1 / 2)) = Except.ok (((6, 6, 6) : ℤ × ℤ × ℤ), true) := by
  have h :=
    c2_fallback_to_most_expensive
      [⟨200, some 0, some 0, some 0, some 0⟩,
       ⟨250, some 1, some 0, some 0, some 0⟩,
       ⟨300, some 2, some 0, some 0, some 0⟩,
       ⟨350, some 3, some 0, some 0, some 0⟩,
       ⟨400, some 4, some 0, some 0, some 0⟩,
       ⟨450, some 5, some 0, some 0, some 0⟩,
       ⟨500, some 6, some 0, some 0, some 0⟩,
       ⟨550, some 7, some 0, some 0, some 0⟩,
       ⟨600, some 8, some 0, some 0, some 0⟩,
       ⟨650, some 9, some 0, some 0, some 0⟩]
      [⟨2, 2, 2, 650, some 0, some 0, some 0, some 0⟩,
       ⟨6, 6, 6, 650, some 1, some 0, some 0, some 0⟩]
      CutoffType.energy (1 / 2) ⟨650, some 9, some 0, some 0, some 0⟩
      ⟨6, 6, 6, 650, some 1, some 0, some 0, some 0⟩
  have hpw :
      check_pw_converged
        [⟨200, some 0, some 0, some 0, some 0⟩,
         ⟨250, some 1, some 0, some 0, some 0⟩,
         ⟨300, some 2, some 0, some 0, some 0⟩,
         ⟨350, some 3, some 0, some 0, some 0⟩,
         ⟨400, some 4, some 0, some 0, some 0⟩,
         ⟨450, some 5, some 0, some 0, some 0⟩,
         ⟨500, some 6, some 0, some 0, some 0⟩,
         ⟨550, some 7, some 0, some 0, some 0⟩,
         ⟨600, some 8, some 0, some 0, some 0⟩,
         ⟨650, some 9, some 0, some 0, some 0⟩]
        CutoffType.energy (1 / 2) = none := by
    norm_num [check_pw_converged, scanPairs, PwRow.complete, PwRow.metric,
      List.filter_cons, abs_lt]
  have hk :
      check_kpoints_converged
        [⟨2, 2, 2, 650, some 0, some 0, some 0, some 0⟩,
         ⟨6, 6, 6, 650, some 1, some 0, some 0, some 0⟩]
        CutoffType.energy (1 / 2) = none := by
    norm_num [check_kpoints_converged, scanPairs, KRow.complete, KRow.metric,
      List.filter_cons, abs_lt]
  exact ⟨h.1 hpw rfl, h.2 hk rfl⟩

/-- C3: when both variants produced recommendations, the reconciled
operating point takes the maximum of the two recommended cutoffs and the
recommended grid of larger Euclidean norm — the result is always one of
the two inputs on each axis (never an average), and on the spec example
(400, (4,4,4)) versus (350, (6,6,6)) it is (400, (6,6,6)). -/
theorem c3_reconciliation_max (pwD pwC : ℚ) (kD kC : ℤ × ℤ × ℤ) :
    (analyze_conv_disp_comp pwD pwC kD kC).1 = max pwD pwC ∧
    ((analyze_conv_disp_comp pwD pwC kD kC).1 = pwD ∨
      (analyze_conv_disp_comp pwD pwC kD kC).1 = pwC) ∧
    pwD ≤ (analyze_conv_disp_comp pwD pwC kD kC).1 ∧
    pwC ≤ (analyze_conv_disp_comp pwD pwC kD kC).1 ∧
    ((analyze_conv_disp_comp pwD pwC kD kC).2 = kD ∨
      (analyze_conv_disp_comp pwD pwC kD kC).2 = kC) ∧
    sq_norm kD ≤ sq_norm (analyze_conv_disp_comp pwD pwC kD kC).2 ∧
    sq_norm kC ≤ sq_norm (analyze_conv_disp_comp pwD pwC kD kC).2 ∧
    analyze_conv_disp_comp 400 350 (4, 4, 4) (6, 6, 6) =
      (400, ((6, 6, 6) : ℤ × ℤ × ℤ)) := by
  have hgrid :
      (analyze_conv_disp_comp pwD pwC kD kC).2 =
        if sq_norm kC < sq_norm kD then kD else kC := rfl
  have hex : analyze_conv_disp_comp 400 350 (4, 4, 4) (6, 6, 6) =
      (400, ((6, 6, 6) : ℤ × ℤ × ℤ)) := by
    have h1 : max (400 : ℚ) 350 = 400 := max_eq_left (by norm_num)
    have h2 : ¬sq_norm ((6, 6, 6) : ℤ × ℤ × ℤ) <
        sq_norm ((4, 4, 4) : ℤ × ℤ × ℤ) := by
      norm_num [sq_norm]
    simp [analyze_conv_disp_comp, h1, h2]
  refine ⟨rfl, max_choice pwD pwC, le_max_left _ _, le_max_right _ _,
    ?_, ?_, ?_, hex⟩
  · rw [hgrid]
    by_cases h : sq_norm kC < sq_norm kD
    · simp [h]
    · simp [h]
  · rw [hgrid]
    by_cases h : sq_norm kC < sq_norm kD
    · simp [h]
    · simp [h]
      exact not_lt.1 h
  · rw [hgrid]
    by_cases h : sq_norm kC < sq_norm kD
    · simp [h]
      exact le_of_lt h
    · simp [h]

/-- Mapping a uuid-indexed lookup over the recorded uuid list recovers the
original node list when the lookup is exact on every original node. -/
theorem mapM_map_ok {α β : Type} (g : α → β) (f : β → Except String α) :
    ∀ l : List α, (∀ a ∈ l, f (g a) = Except.ok a) →
      (l.map g).mapM f = Except.ok l
  | [], _ => rfl
  | a :: t, h => by
    have h1 : f (g a) = Except.ok a := h a (List.mem_cons_self a t)
    have h2 : (t.map g).mapM f = Except.ok t :=
      mapM_map_ok g f t fun b hb => h b (List.mem_cons_of_mem a hb)
    rw [List.map_cons, List.mapM_cons, h1, h2]
    rfl

/-- In a collected batch that is a permutation of the submitted one with
distinct uuids, looking a submitted node's uuid up in the (dict-ordered)
collected list finds exactly that node. -/
theorem find_uuid_eq (orig completed : List WorkNode)
    (hperm : completed.Perm orig)
    (hnodup : (orig.map WorkNode.uuid).Nodup) (o : WorkNode) (ho : o ∈ orig) :
    completed.reverse.find? (fun n => n.uuid == o.uuid) = some o := by
  have hmem : o ∈ completed.reverse := by
    rw [List.mem_reverse]
    exact hperm.mem_iff.2 ho
  have hsome : (completed.reverse.find? (fun n => n.uuid == o.uuid)).isSome :=
    List.find?_isSome.2 ⟨o, hmem, by simp⟩
  obtain ⟨x, hx⟩ := Option.isSome_iff_exists.1 hsome
  have hxmem : x ∈ orig := hperm.mem_iff.1 (List.mem_reverse.1
    (List.mem_of_find?_eq_some hx))
  have hxp : x.uuid = o.uuid := by
    have := List.find?_some hx
    simpa using this
  have hxo : x = o := List.inj_on_of_nodup_map hnodup hxmem ho hxp
  rw [hx, hxo]

/-- C4: the results presented to the analysis are ordered by the recorded
submission-order uuid list, whatever order the execution service completed
them in: for any permutation of the batch the collected list equals the
original submission-order list, so any two completion orders collect
identically. -/
theorem c4_collect_in_submission_order (orig completed completed2 :
    List WorkNode) (hperm : completed.Perm orig)
    (hperm2 : completed2.Perm orig)
    (hnodup : (orig.map WorkNode.uuid).Nodup) :
    sort_with_uuids completed (orig.map WorkNode.uuid) = Except.ok orig ∧
    sort_with_uuids completed (orig.map WorkNode.uuid) =
      sort_with_uuids completed2 (orig.map WorkNode.uuid) := by
  have key : ∀ (compl : List WorkNode), compl.Perm orig →
      sort_with_uuids compl (orig.map WorkNode.uuid) = Except.ok orig := by
    intro compl hp
    unfold sort_with_uuids
    refine mapM_map_ok WorkNode.uuid _ orig ?_
    intro o ho
    rw [find_uuid_eq orig compl hp hnodup o ho]
  refine ⟨key completed hperm, ?_⟩
  rw [key completed hperm, key completed2 hperm2]

/-- Witness for C4: a batch of five requests collected in reverse
completion order still yields the outcomes in submission order, achieving
the same result as an in-order completion. -/
theorem c4_witness :
    sort_with_uuids
        [⟨5, 50⟩, ⟨4, 40⟩, ⟨3, 30⟩, ⟨2, 20⟩, ⟨1, 10⟩]
        (([⟨1, 10⟩, ⟨2, 20⟩, ⟨3, 30⟩, ⟨4, 40⟩, ⟨5, 50⟩] :
            List WorkNode).map WorkNode.uuid) =
      Except.ok [⟨1, 10⟩, ⟨2, 20⟩, ⟨3, 30⟩, ⟨4, 40⟩, ⟨5, 50⟩] ∧
    sort_with_uuids
        [⟨5, 50⟩, ⟨4, 40⟩, ⟨3, 30⟩, ⟨2, 20⟩, ⟨1, 10⟩]
        (([⟨1, 10⟩, ⟨2, 20⟩, ⟨3, 30⟩, ⟨4, 40⟩, ⟨5, 50⟩] :
            List WorkNode).map WorkNode.uuid) =
      sort_with_uuids
        [⟨1, 10⟩, ⟨2, 20⟩, ⟨3, 30⟩, ⟨4, 40⟩, ⟨5, 50⟩]
        (([⟨1, 10⟩, ⟨2, 20⟩, ⟨3, 30⟩, ⟨4, 40⟩, ⟨5, 50⟩] :
            List WorkNode).map WorkNode.uuid) :=
  c4_collect_in_submission_order
    [⟨1, 10⟩, ⟨2, 20⟩, ⟨3, 30⟩, ⟨4, 40⟩, ⟨5, 50⟩]
    [⟨5, 50⟩, ⟨4, 40⟩, ⟨3, 30⟩, ⟨2, 20⟩, ⟨1, 10⟩]
    [⟨1, 10⟩, ⟨2, 20⟩, ⟨3, 30⟩, ⟨4, 40⟩, ⟨5, 50⟩]
    (by decide) (by decide) (by decide)

/-- After a grid has just been appended, the next kept grid differs from
it: the head of the generated tail is never the remembered grid. -/
theorem generate_unique_grids_head_ne (f : ℚ → ℤ × ℤ × ℤ) :
    ∀ (l : List ℚ) (g : ℤ × ℤ × ℤ),
      (generate_unique_grids f (some g) l).head? ≠ some g
  | [], g => by simp [generate_unique_grids]
  | s :: rest, g => by
    by_cases h : some (f s) = some g
    · simp only [generate_unique_grids, if_pos h]
      exact generate_unique_grids_head_ne f rest g
    · simp only [generate_unique_grids, if_neg h]
      simpa using h

/-- The generated grid list never keeps two equal consecutive grids. -/
theorem generate_unique_grids_chain (f : ℚ → ℤ × ℤ × ℤ) :
    ∀ (l : List ℚ) (last : Option (ℤ × ℤ × ℤ)),
      (generate_unique_grids f last l).Chain' (· ≠ ·)
  | [], _ => by simp [generate_unique_grids]
  | s :: rest, last => by
    by_cases h : some (f s) = last
    · simp only [generate_unique_grids, if_pos h]
      exact generate_unique_grids_chain f rest last
    · simp only [generate_unique_grids, if_neg h]
      rw [List.chain'_cons']
      refine ⟨?_, generate_unique_grids_chain f rest (some (f s))⟩
      intro y hy hEq
      have hhead : (generate_unique_grids f (some (f s)) rest).head? = some y :=
        Option.mem_def.1 hy
      exact generate_unique_grids_head_ne f rest (f s) (by rw [hhead, hEq])

/-- C6: for a coarse spacing above the dense one and a positive sample
count, the spacing series has `n + 1` entries, starts at the coarse value,
ends at the dense value, steps down by the constant amount
`(coarse - dense) / n` (hence is strictly decreasing), and the grid list
derived from it by any spacing-to-grid map contains no two consecutive
equal triples. -/
theorem c6_spacing_series_monotone_dedup (coarse dense : ℚ) (n : ℕ)
    (f : ℚ → ℤ × ℤ × ℤ) (hd : dense < coarse) (hn : 0 < n) :
    (k_sampling coarse dense n).length = n + 1 ∧
    (k_sampling coarse dense n).head? = some coarse ∧
    (k_sampling coarse dense n).getLast? = some dense ∧
    ((k_sampling coarse dense n).Chain'
      fun a b => b = a - (coarse - dense) / n) ∧
    ((k_sampling coarse dense n).Chain' fun a b => b < a) ∧
    (generate_unique_grids f none (k_sampling coarse dense n)).Chain'
      (· ≠ ·) := by
  have hn0 : (n : ℚ) ≠ 0 := Nat.cast_ne_zero.2 hn.ne'
  have hstep : 0 < (coarse - dense) / n := by
    apply div_pos (by linarith) (by exact_mod_cast hn)
  refine ⟨by simp [k_sampling], ?_, ?_, ?_, ?_,
    generate_unique_grids_chain f _ none⟩
  · rw [k_sampling, List.range_succ_eq_map, List.map_cons, List.head?_cons]
    norm_num
  · rw [k_sampling, List.range_succ, List.map_append, List.map_cons,
      List.map_nil, List.getLast?_concat]
    congr 1
    field_simp
  · rw [k_sampling, List.chain'_map, List.chain'_range_succ]
    intro m hm
    push_cast
    ring
  · rw [k_sampling, List.chain'_map, List.chain'_range_succ]
    intro m hm
    have : (m : ℚ) < (m : ℚ) + 1 := by linarith
    push_cast
    nlinarith [hstep]

/-- Witness for C6: the series from coarse spacing 1 to dense spacing 0 in
one step is `[1, 0]` with all the stated properties, and the derived grid
list has no consecutive duplicates. -/
theorem c6_witness :
    (k_sampling 1 0 1).length = 1 + 1 ∧
    (k_sampling 1 0 1).head? = some 1 ∧
    (k_sampling 1 0 1).getLast? = some 0 ∧
    ((k_sampling 1 0 1).Chain' fun a b => b = a - (1 - 0) / ((1 : ℕ) : ℚ)) ∧
    ((k_sampling 1 0 1).Chain' fun a b => b < a) ∧
    (generate_unique_grids (fun _ => (2, 2, 2)) none (k_sampling 1 0 1)).Chain'
      (· ≠ ·) :=
  c6_spacing_series_monotone_dedup 1 0 1 (fun _ => (2, 2, 2)) (by norm_num)
    (by norm_num)

end Converge

namespace Battery

/-- Unfolding one iteration of the retry loop. -/
theorem deliLoop_succ_eq (enumOk : ℚ → Bool) (fuel : ℕ) (atol : ℚ) :
    deliLoop enumOk (fuel + 1) atol =
      if enumOk atol then
        if atol > 1 / 100 then
          Except.error "Persisting symmetry error - aborting the process"
        else Except.ok atol
      else
        if atol * 10 > 1 / 100 then
          Except.error "Persisting symmetry error - aborting the process"
        else deliLoop enumOk fuel (atol * 10) := rfl

/-- C10: on an enumeration failure the attempt is retried with the
symmetry tolerance multiplied by 10; a success at or below the ceiling
`0.01` returns the enumeration result; a success strictly above the
ceiling or a failure whose relaxed tolerance exceeds the ceiling aborts
the whole operation with the fatal error; from the default starting
tolerance `1e-5` the operation returns the result of the first succeeding
attempt among the tolerances `1e-5, 1e-4, 1e-3, 1e-2` and fails fatally
when all four fail. -/
theorem c10_tolerance_retry_policy (enumOk : ℚ → Bool) (atol : ℚ)
    (fuel : ℕ) :
    (enumOk atol = true → atol ≤ 1 / 100 →
      deliLoop enumOk (fuel + 1) atol = Except.ok atol) ∧
    (enumOk atol = true → 1 / 100 < atol →
      deliLoop enumOk (fuel + 1) atol =
        Except.error "Persisting symmetry error - aborting the process") ∧
    (enumOk atol = false → atol * 10 ≤ 1 / 100 →
      deliLoop enumOk (fuel + 1) atol = deliLoop enumOk fuel (atol * 10)) ∧
    (enumOk atol = false → 1 / 100 < atol * 10 →
      deliLoop enumOk (fuel + 1) atol =
        Except.error "Persisting symmetry error - aborting the process") ∧
    (create_delithiated_multiple_level enumOk none =
      if enumOk (1 / 100000) then Except.ok (1 / 100000)
      else if enumOk (1 / 10000) then Except.ok (1 / 10000)
      else if enumOk (1 / 1000) then Except.ok (1 / 1000)
      else if enumOk (1 / 100) then Except.ok (1 / 100)
      else Except.error "Persisting symmetry error - aborting the process") := by
  refine ⟨?_, ?_, ?_, ?_, ?_⟩
  · intro h1 h2
    rw [deliLoop_succ_eq, if_pos h1, if_neg (not_lt.2 h2)]
  · intro h1 h2
    rw [deliLoop_succ_eq, if_pos h1, if_pos h2]
  · intro h1 h2
    rw [deliLoop_succ_eq, if_neg (by simp [h1]), if_neg (not_lt.2 h2)]
  · intro h1 h2
    rw [deliLoop_succ_eq, if_neg (by simp [h1]), if_pos h2]
  · show deliLoop enumOk (15 + 1) (1 / 100000) = _
    rw [deliLoop_succ_eq]
    cases h1 : enumOk (1 / 100000) with
    | true =>
        rw [if_pos (Eq.refl true), if_pos (Eq.refl true),
          if_neg (by norm_num : ¬(1 / 100000 : ℚ) > 1 / 100)]
    | false =>
        rw [if_neg (by decide : ¬((false : Bool) = true)),
          if_neg (by decide : ¬((false : Bool) = true)),
          if_neg (by norm_num : ¬(1 / 100000 : ℚ) * 10 > 1 / 100),
          show (1 / 100000 : ℚ) * 10 = 1 / 10000 from by norm_num]
        show deliLoop enumOk (14 + 1) (1 / 10000) = _
        rw [deliLoop_succ_eq]
        cases h2 : enumOk (1 / 10000) with
        | true =>
            rw [if_pos (Eq.refl true), if_pos (Eq.refl true),
              if_neg (by norm_num : ¬(1 / 10000 : ℚ) > 1 / 100)]
        | false =>
            rw [if_neg (by decide : ¬((false : Bool) = true)),
              if_neg (by decide : ¬((false : Bool) = true)),
              if_neg (by norm_num : ¬(1 / 10000 : ℚ) * 10 > 1 / 100),
              show (1 / 10000 : ℚ) * 10 = 1 / 1000 from by norm_num]
            show deliLoop enumOk (13 + 1) (1 / 1000) = _
            rw [deliLoop_succ_eq]
            cases h3 : enumOk (1 / 1000) with
            | true =>
                rw [if_pos (Eq.refl true), if_pos (Eq.refl true),
                  if_neg (by norm_num : ¬(1 / 1000 : ℚ) > 1 / 100)]
            | false =>
                rw [if_neg (by decide : ¬((false : Bool) = true)),
                  if_neg (by decide : ¬((false : Bool) = true)),
                  if_neg (by norm_num : ¬(1 / 1000 : ℚ) * 10 > 1 / 100),
                  show (1 / 1000 : ℚ) * 10 = 1 / 100 from by norm_num]
                show deliLoop enumOk (12 + 1) (1 / 100) = _
                rw [deliLoop_succ_eq]
                cases h4 : enumOk (1 / 100) with
                | true =>
                    rw [if_pos (Eq.refl true), if_pos (Eq.refl true),
                      if_neg (by norm_num : ¬(1 / 100 : ℚ) > 1 / 100)]
                | false =>
                    rw [if_neg (by decide : ¬((false : Bool) = true)),
                      if_neg (by decide : ¬((false : Bool) = true)),
                      if_pos (by norm_num : (1 / 100 : ℚ) * 10 > 1 / 100)]

/-- Witness for C10: an enumeration that succeeds at tolerance `1e-3`
(below the ceiling) returns its result at that tolerance. -/
theorem c10_witness :
    (fun _ => (true : Bool)) ((1 : ℚ) / 1000) = true ∧
    (1 / 1000 : ℚ) ≤ 1 / 100 ∧
    deliLoop (fun _ => true) (5 + 1) (1 / 1000) =
      Except.ok ((1 : ℚ) / 1000) :=
  ⟨rfl, by norm_num,
    (c10_tolerance_retry_policy (fun _ => true) (1 / 1000) 5).1 rfl
      (by norm_num)⟩

end Battery

namespace Converge

/-- Sequencing a successful step. -/
theorem except_bind_ok {ε α β : Type} (x : α) (f : α → Except ε β) :
    (Except.ok x >>= f) = f x := rfl

/-- Sequencing a failed step propagates the error. -/
theorem except_bind_error {ε α β : Type} (e : ε) (f : α → Except ε β) :
    ((Except.error e : Except ε α) >>= f) = Except.error e := rfl

/-- A successful row update carries the variant cutoff and the
variant-minus-baseline observables. -/
theorem rowSub_ok_fields (a b r : PwRow) (h : rowSub a b = Except.ok r) :
    PwRow.complete a = true ∧ PwRow.complete b = true ∧
    r.cutoff = a.cutoff ∧
    r.energy = some (a.energy.getD 0 - b.energy.getD 0) ∧
    r.force = some (a.force.getD 0 - b.force.getD 0) ∧
    r.vbm = some (a.vbm.getD 0 - b.vbm.getD 0) ∧
    r.gap = some (a.gap.getD 0 - b.gap.getD 0) := by
  by_cases hc : (PwRow.complete a && PwRow.complete b) = true
  · rw [rowSub, if_pos hc] at h
    obtain ⟨hca, hcb⟩ := Bool.and_eq_true_iff.1 hc
    cases h
    exact ⟨hca, hcb, rfl, rfl, rfl, rfl, rfl⟩
  · rw [rowSub, if_neg hc] at h
    cases h

/-- C8: a variant sweep with a failed sample whose baseline counterpart
succeeded makes the unguarded index-aligned subtraction raise an unhandled
`TypeError` instead of producing a difference sweep, and the cutoff
analysis aborts with that error rather than recovering. -/
theorem c8_unguarded_difference_subtraction :
    ([⟨200, some 0, some 0, some 0, some 0⟩,
      (⟨250, none, none, none, none⟩ : PwRow)] : List PwRow).length =
      ([⟨200, some 0, some 0, some 0, some 0⟩,
        ⟨250, some (1 / 2), some 0, some 0, some 0⟩] : List PwRow).length ∧
    PwRow.complete ⟨250, none, none, none, none⟩ = false ∧
    PwRow.complete ⟨250, some (1 / 2), some 0, some 0, some 0⟩ = true ∧
    diffSweep
        [⟨200, some 0, some 0, some 0, some 0⟩,
         ⟨250, none, none, none, none⟩]
        [⟨200, some 0, some 0, some 0, some 0⟩,
         ⟨250, some (1 / 2), some 0, some 0, some 0⟩] =
      Except.error "TypeError: unsupported operand type(s) for -" ∧
    analyzeConvCutoff true false
        [⟨200, some 0, some 0, some 0, some 0⟩,
         ⟨250, some (1 / 2), some 0, some 0, some 0⟩]
        [⟨200, some 0, some 0, some 0, some 0⟩,
         ⟨250, none, none, none, none⟩]
        [] CutoffType.energy (1 / 100) (1 / 100) =
      Except.error "TypeError: unsupported operand type(s) for -" := by
  refine ⟨rfl, rfl, rfl, ?_, ?_⟩
  · simp [diffSweep, rowSub, PwRow.complete, except_bind_ok, except_bind_error]
  · simp [analyzeConvCutoff, diffSweep, rowSub, PwRow.complete,
      except_bind_ok, except_bind_error]

end Converge

namespace Converge

/-- Counterexample for C7: a run with displacement requested in which the
baseline sweep converges only at its last cutoff (350 eV) while the
displacement-minus-baseline difference sweep already satisfies the relative
threshold at 250 eV; the final recommendation is 250 eV, strictly below the
baseline-converged cutoff, because the controller overwrites the baseline
recommendation with the variant recommendation instead of taking a maximum
with it. -/
theorem c7_counterexample :
    check_pw_converged
        [⟨200, some 0, some 0, some 0, some 0⟩,
         ⟨250, some (1 / 2), some 0, some 0, some 0⟩,
         ⟨300, some 1, some 0, some 0, some 0⟩,
         ⟨350, some (1001 / 1000), some 0, some 0, some 0⟩]
        CutoffType.energy (1 / 100) = some 350 ∧
    analyzeConvCutoff true false
        [⟨200, some 0, some 0, some 0, some 0⟩,
         ⟨250, some (1 / 2), some 0, some 0, some 0⟩,
         ⟨300, some 1, some 0, some 0, some 0⟩,
         ⟨350, some (1001 / 1000), some 0, some 0, some 0⟩]
        [⟨200, some 0, some 0, some 0, some 0⟩,
         ⟨250, some (101 / 200), some 0, some 0, some 0⟩,
         ⟨300, some (101 / 100), some 0, some 0, some 0⟩,
         ⟨350, some (10111 / 10000), some 0, some 0, some 0⟩]
        [] CutoffType.energy (1 / 100) (1 / 100) = Except.ok 250 ∧
    ¬(350 : ℚ) ≤ 250 := by
  refine ⟨?_, ?_, by norm_num⟩
  · norm_num [check_pw_converged, scanPairs, PwRow.complete, PwRow.metric,
      List.filter_cons, abs_lt]
  · norm_num [analyzeConvCutoff, diffSweep, rowSub, except_bind_ok,
      except_bind_error, check_pw_converged, scanPairs, PwRow.complete,
      PwRow.metric, List.filter_cons, abs_lt]
    rfl

/-- C7 amended: the final recommended cutoff equals the baseline-converged
cutoff when neither displacement nor compression is requested; when a
variant is requested the controller replaces the baseline recommendation
with the variant difference-sweep recommendation, which can be lower. -/
theorem c7_amended_baseline_only (org : List PwRow) (c : CutoffType)
    (θ θr : ℚ) (b : ℚ) (h : check_pw_converged org c θ = some b) :
    analyzeConvCutoff false false org [] [] c θ θr = Except.ok b := by
  simp [analyzeConvCutoff, analyze_pw_conv_many, h, except_bind_ok]

/-- Witness for the amended C7: on the baseline sweep converging at 350 eV
with no variant requested the final recommendation is exactly 350 eV. -/
theorem c7_witness :
    check_pw_converged
        [⟨200, some 0, some 0, some 0, some 0⟩,
         ⟨250, some (1 / 2), some 0, some 0, some 0⟩,
         ⟨300, some 1, some 0, some 0, some 0⟩,
         ⟨350, some (1001 / 1000), some 0, some 0, some 0⟩]
        CutoffType.energy (1 / 100) = some 350 ∧
    analyzeConvCutoff false false
        [⟨200, some 0, some 0, some 0, some 0⟩,
         ⟨250, some (1 / 2), some 0, some 0, some 0⟩,
         ⟨300, some 1, some 0, some 0, some 0⟩,
         ⟨350, some (1001 / 1000), some 0, some 0, some 0⟩]
        [] [] CutoffType.energy (1 / 100) (1 / 100) = Except.ok 350 := by
  have h : check_pw_converged
      [⟨200, some 0, some 0, some 0, some 0⟩,
       ⟨250, some (1 / 2), some 0, some 0, some 0⟩,
       ⟨300, some 1, some 0, some 0, some 0⟩,
       ⟨350, some (1001 / 1000), some 0, some 0, some 0⟩]
      CutoffType.energy (1 / 100) = some 350 := by
    norm_num [check_pw_converged, scanPairs, PwRow.complete, PwRow.metric,
      List.filter_cons, abs_lt]
  exact ⟨h,
    c7_amended_baseline_only
      [⟨200, some 0, some 0, some 0, some 0⟩,
       ⟨250, some (1 / 2), some 0, some 0, some 0⟩,
       ⟨300, some 1, some 0, some 0, some 0⟩,
       ⟨350, some (1001 / 1000), some 0, some 0, some 0⟩]
      CutoffType.energy (1 / 100) (1 / 100) 350 h⟩

end Converge

namespace Converge

/-- Counterexample for C9: with displacement requested and no user-supplied
cutoff, the persisted `pw_displacement` table holds the difference rows
computed by the analysis (energies `0.1 - 0 = 0.1` and `0.7 - 0.5 = 0.2`),
which differ from the raw displacement-sweep observables (`0.1`, `0.7`):
the analysis mutates the context rows in place before `store_conv` runs. -/
theorem c9_counterexample :
    stored_pw_displacement
        [⟨200, some 0, some 0, some 0, some 0⟩,
         ⟨250, some (1 / 2), some 0, some 0, some 0⟩]
        [⟨200, some (1 / 10), some 0, some 0, some 0⟩,
         ⟨250, some (7 / 10), some 0, some 0, some 0⟩] =
      Except.ok
        [⟨200, some (1 / 10), some 0, some 0, some 0⟩,
         ⟨250, some (1 / 5), some 0, some 0, some 0⟩] ∧
    ([⟨200, some (1 / 10), some 0, some 0, some 0⟩,
      ⟨250, some (1 / 5), some 0, some 0, some 0⟩] : List PwRow) ≠
      [⟨200, some (1 / 10), some 0, some 0, some 0⟩,
       ⟨250, some (7 / 10), some 0, some 0, some 0⟩] := by
  constructor
  · norm_num [stored_pw_displacement, diffSweep, rowSub, except_bind_ok,
      except_bind_error, PwRow.complete]
  · norm_num [PwRow.mk.injEq]

/-- C9 amended: the persisted `pw_displacement` table is the index-aligned
difference sweep, not the raw variant sweep: one row per variant sample,
keeping the variant independent-variable column but holding
variant-minus-baseline observable columns (when the baseline cutoff was not
user-supplied; failed samples make the preceding subtraction raise, so a
successfully stored table has only complete rows). -/
theorem c9_amended_stored_is_difference_sweep :
    ∀ (disp org rows : List PwRow),
      stored_pw_displacement org disp = Except.ok rows →
      rows.length = disp.length ∧ disp.length ≤ org.length ∧
      ∀ i (h1 : i < rows.length) (h2 : i < disp.length)
        (h3 : i < org.length),
        rowSub (disp.get ⟨i, h2⟩) (org.get ⟨i, h3⟩) =
          Except.ok (rows.get ⟨i, h1⟩) ∧
        (rows.get ⟨i, h1⟩).cutoff = (disp.get ⟨i, h2⟩).cutoff ∧
        (rows.get ⟨i, h1⟩).energy =
          some ((disp.get ⟨i, h2⟩).energy.getD 0 -
            (org.get ⟨i, h3⟩).energy.getD 0)
  | [], org, rows => by
    intro h
    simp only [stored_pw_displacement, diffSweep] at h
    cases h
    refine ⟨rfl, by simp, ?_⟩
    intro i h1 h2 h3
    exact absurd h2 (by simp)
  | a :: as, org, rows => by
    intro h
    cases org with
    | nil =>
      simp only [stored_pw_displacement, diffSweep] at h
      cases h
    | cons b bs =>
      simp only [stored_pw_displacement, diffSweep] at h
      cases hra : rowSub a b with
      | error e => rw [hra, except_bind_error] at h; cases h
      | ok r =>
        rw [hra, except_bind_ok] at h
        cases hrest : diffSweep as bs with
        | error e => rw [hrest, except_bind_error] at h; cases h
        | ok rest =>
          rw [hrest, except_bind_ok] at h
          have hrows : rows = r :: rest := by
            cases h
            rfl
          subst hrows
          obtain ⟨ih1, ih2, ih3⟩ :=
            c9_amended_stored_is_difference_sweep as bs rest
              (by rw [stored_pw_displacement]; exact hrest)
          refine ⟨by simp [ih1], by simpa using Nat.succ_le_succ ih2, ?_⟩
          intro i h1 h2 h3
          cases i with
          | zero =>
            obtain ⟨_, _, hcut, hen, _⟩ := rowSub_ok_fields a b r hra
            exact ⟨hra, hcut, hen⟩
          | succ n =>
            have hn1 : n < rest.length := by simpa using h1
            have hn2 : n < as.length := by simpa using h2
            have hn3 : n < bs.length := by simpa using h3
            simpa using ih3 n hn1 hn2 hn3

/-- Witness for the amended C9: on a concrete two-sample run the stored
table has the variant cutoffs with difference observables, checked here at
index 1 (stored energy `0.2 = 0.7 - 0.5`). -/
theorem c9_witness :
    ([⟨200, some (1 / 10), some 0, some 0, some 0⟩,
      ⟨250, some (1 / 5), some 0, some 0, some 0⟩] : List PwRow).length =
      ([⟨200, some (1 / 10), some 0, some 0, some 0⟩,
        ⟨250, some (7 / 10), some 0, some 0, some 0⟩] : List PwRow).length ∧
    (([⟨200, some (1 / 10), some 0, some 0, some 0⟩,
       ⟨250, some (1 / 5), some 0, some 0, some 0⟩] : List PwRow).get
        ⟨1, by simp⟩).cutoff =
      (([⟨200, some (1 / 10), some 0, some 0, some 0⟩,
         ⟨250, some (7 / 10), some 0, some 0, some 0⟩] : List PwRow).get
        ⟨1, by simp⟩).cutoff ∧
    (([⟨200, some (1 / 10), some 0, some 0, some 0⟩,
       ⟨250, some (1 / 5), some 0, some 0, some 0⟩] : List PwRow).get
        ⟨1, by simp⟩).energy =
      some ((([⟨200, some (1 / 10), some 0, some 0, some 0⟩,
          ⟨250, some (7 / 10), some 0, some 0, some 0⟩] : List PwRow).get
            ⟨1, by simp⟩).energy.getD 0 -
        (([⟨200, some 0, some 0, some 0, some 0⟩,
           ⟨250, some (1 / 2), some 0, some 0, some 0⟩] : List PwRow).get
            ⟨1, by simp⟩).energy.getD 0) := by
  have H :=
    c9_amended_stored_is_difference_sweep
      [⟨200, some (1 / 10), some 0, some 0, some 0⟩,
       ⟨250, some (7 / 10), some 0, some 0, some 0⟩]
      [⟨200, some 0, some 0, some 0, some 0⟩,
       ⟨250, some (1 / 2), some 0, some 0, some 0⟩]
      [⟨200, some (1 / 10), some 0, some 0, some 0⟩,
       ⟨250, some (1 / 5), some 0, some 0, some 0⟩]
      (by norm_num [stored_pw_displacement, diffSweep, rowSub,
        except_bind_ok, except_bind_error, PwRow.complete])
  have H1 := H.2.2 1 (by simp) (by simp) (by simp)
  exact ⟨H.1, H1.2.1, H1.2.2⟩

end Converge
